import Mathlib

/-!
Shallow embedding of the Naver Commerce product-option example script
(example-naver-option.js).  The script loads credentials from the
environment, fetches one product's detail record through an external
API client, and prints human-readable sections for the four option
variants found under originProduct.detailAttribute.optionInfo.

JavaScript absent/undefined fields are modelled with `Option`; the
falsiness checks of the source are modelled exactly (a string is falsy
iff it is empty or absent; an object or array is always truthy).
Console output is modelled as a list of events; the two external
collaborator calls (getChannelProductDetail, parseOptionInfo) are
modelled as `Except`-valued fields of an `ApiModel`, so that a raised
exception is explicit.
-/

namespace NaverOptionExample

/-- A console event: console.log or console.error with the rendered text. -/
inductive ConsoleEvent where
  | log (s : String)
  | error (s : String)
deriving DecidableEq, Repr

/-- Rendering of a possibly-absent string in a JS template literal:
an undefined field prints as "undefined". -/
def showOpt : Option String → String
  | some s => s
  | none => "undefined"

/-- Rendering of a possibly-absent number in a JS template literal. -/
def showNumOpt : Option Int → String
  | some n => toString n
  | none => "undefined"

/-- JS truthiness of a string-or-undefined value: falsy iff absent or empty. -/
def jsTruthy : Option String → Bool
  | none => false
  | some s => !(s == "")

/-- JS a || b on two possibly-absent strings, rendered in a template:
if a is truthy (present and non-empty) the result is a, otherwise the
rendering of b.  This is the source's std.optionName || std.standardOptionName. -/
def jsStrOr (a b : Option String) : String :=
  match a with
  | some s => if s == "" then showOpt b else s
  | none => showOpt b

/-- Entry of optionSimple: groupName, name, id. -/
structure OptionSimpleEntry where
  groupName : Option String
  name : Option String
  id : Option String
deriving DecidableEq, Repr

/-- Entry of optionCombinations: optionName, id, stockQuantity. -/
structure OptionCombinationEntry where
  optionName : Option String
  id : Option String
  stockQuantity : Option Int
deriving DecidableEq, Repr

/-- Entry of optionCustom: groupName, inputLimit. -/
structure OptionCustomEntry where
  groupName : Option String
  inputLimit : Option Int
deriving DecidableEq, Repr

/-- Entry of optionStandards: optionName or standardOptionName, id. -/
structure OptionStandardEntry where
  optionName : Option String
  standardOptionName : Option String
  id : Option String
deriving DecidableEq, Repr

/-- The optionInfo object: four independently optional collections plus
the combination group names. -/
structure OptionInfo where
  optionSimple : Option (List OptionSimpleEntry)
  optionCombinations : Option (List OptionCombinationEntry)
  optionCombinationGroupNames : Option (List String)
  optionCustom : Option (List OptionCustomEntry)
  optionStandards : Option (List OptionStandardEntry)
deriving DecidableEq, Repr

/-- detailAttribute with its optional optionInfo field. -/
structure DetailAttribute where
  optionInfo : Option OptionInfo
deriving DecidableEq, Repr

/-- originProduct with its optional detailAttribute field. -/
structure OriginProduct where
  detailAttribute : Option DetailAttribute
deriving DecidableEq, Repr

/-- The fetched product detail record. -/
structure ProductDetail where
  name : Option String
  originProduct : Option OriginProduct
deriving DecidableEq, Repr

/-- The environment variables read by the script. -/
structure Env where
  clientId : Option String
  clientSecret : Option String
deriving DecidableEq, Repr

/-- The external collaborator (NaverCommerceAPI): the detail fetch may
reject with an error message or resolve to a possibly-null detail; the
built-in parser may throw or return a value, modelled here already
serialized as the string the script would print. -/
structure ApiModel where
  fetch : String → Except String (Option ProductDetail)
  parse : OptionInfo → String → Except String String

/-- The error message for missing credentials (line 27 of the source). -/
def credsMsg : String :=
  ".env 파일에 NAVER_CLIENT_ID 및 NAVER_CLIENT_SECRET이 설정되어야 합니다."

/-- The start message logged at line 33 of the source. -/
def startMsg (productId : String) : String :=
  "🔍 상품 옵션 조회 시작 (Product ID: " ++ productId ++ ")"

/-- The guidance message for a null product detail (line 41 of the source). -/
def notFoundMsg : String :=
  "상품 정보를 가져올 수 없습니다. ID가 정확한지, 판매중인 상품인지 확인해주세요."

/-- The informational notice for a product with no option data (line 51). -/
def noOptionsMsg : String :=
  "ℹ️ 이 상품은 설정된 옵션이 없는 단품 상품입니다."

/-- Header printed before the raw optionInfo dump (line 55). -/
def rawHeader : String := "\n--- [원본 옵션 데이터 구조] ---"

/-- Header printed before the per-variant sections (line 59). -/
def typeHeader : String := "\n--- [유형별 옵션 파싱 결과] ---"

/-- Header printed before the built-in parser result (line 97). -/
def builtinHeader : String := "\n--- [내장 메서드 파싱 결과] ---"

/-- Label of the simple-option section. -/
def simpleLabel : String := "[단독형 옵션]"

/-- Label of the combination-option section. -/
def combLabel : String := "[조합형 옵션]"

/-- Label of the custom-option section. -/
def customLabel : String := "[직접 입력형 옵션]"

/-- Label of the standard-option section. -/
def standardLabel : String := "[표준형 옵션]"

/-- Line printed per optionSimple entry (line 65 of the source). -/
def simpleLine (opt : OptionSimpleEntry) : String :=
  "  - " ++ showOpt opt.groupName ++ ": " ++ showOpt opt.name
    ++ " (ID: " ++ showOpt opt.id ++ ")"

/-- Line printed once per combinations section with the joined group names
(line 73 of the source). -/
def groupNamesLine (groupNames : List String) : String :=
  "  - 옵션 항목명: " ++ String.intercalate ", " groupNames

/-- Line printed per optionCombinations entry (line 76 of the source). -/
def comboLine (combo : OptionCombinationEntry) : String :=
  "  - 조합: " ++ showOpt combo.optionName ++ " (ID: " ++ showOpt combo.id
    ++ ", 재고: " ++ showNumOpt combo.stockQuantity ++ "개)"

/-- Line printed per optionCustom entry (line 84 of the source). -/
def customLine (custom : OptionCustomEntry) : String :=
  "  - " ++ showOpt custom.groupName ++ " (글자수 제한: "
    ++ showNumOpt custom.inputLimit ++ "자)"

/-- The display name of an optionStandards entry:
std.optionName || std.standardOptionName (line 92 of the source). -/
def standardDisplayName (std : OptionStandardEntry) : String :=
  jsStrOr std.optionName std.standardOptionName

/-- Line printed per optionStandards entry (line 92 of the source). -/
def standardLine (std : OptionStandardEntry) : String :=
  "  - " ++ standardDisplayName std ++ " (ID: " ++ showOpt std.id ++ ")"

/-- The simple-option block (lines 62-67): emitted when optionSimple is
present and non-empty (an array is always truthy in JS, so the guard is
presence plus length > 0). -/
def formatSimple (oi : OptionInfo) : List ConsoleEvent :=
  match oi.optionSimple with
  | some l =>
      if l.length > 0 then
        ConsoleEvent.log simpleLabel
          :: l.map (fun opt => ConsoleEvent.log (simpleLine opt))
      else []
  | none => []

/-- The combination-option block (lines 70-78): the group-name line is
computed from optionCombinationGroupNames || [] and printed once, before
the per-entry lines. -/
def formatCombinations (oi : OptionInfo) : List ConsoleEvent :=
  match oi.optionCombinations with
  | some l =>
      if l.length > 0 then
        ConsoleEvent.log combLabel
          :: ConsoleEvent.log (groupNamesLine (oi.optionCombinationGroupNames.getD []))
          :: l.map (fun combo => ConsoleEvent.log (comboLine combo))
      else []
  | none => []

/-- The custom-option block (lines 81-86). -/
def formatCustom (oi : OptionInfo) : List ConsoleEvent :=
  match oi.optionCustom with
  | some l =>
      if l.length > 0 then
        ConsoleEvent.log customLabel
          :: l.map (fun custom => ConsoleEvent.log (customLine custom))
      else []
  | none => []

/-- The standard-option block (lines 89-94). -/
def formatStandards (oi : OptionInfo) : List ConsoleEvent :=
  match oi.optionStandards with
  | some l =>
      if l.length > 0 then
        ConsoleEvent.log standardLabel
          :: l.map (fun std => ConsoleEvent.log (standardLine std))
      else []
  | none => []

/-- The four per-variant blocks in the source order: simple, combinations,
custom, standards (lines 62-94). -/
def formatSections (oi : OptionInfo) : List ConsoleEvent :=
  formatSimple oi ++ formatCombinations oi ++ formatCustom oi ++ formatStandards oi

/-- The formatter over an optionInfo that may be absent (lines 50-94):
absent optionInfo prints the single no-options notice; a present one
prints the raw dump, the per-variant header and the four blocks.
stringify stands for JSON.stringify(optionInfo, null, 2). -/
def formatOptionReport (stringify : OptionInfo → String) :
    Option OptionInfo → List ConsoleEvent
  | none => [ConsoleEvent.log noOptionsMsg]
  | some oi =>
      ConsoleEvent.log rawHeader
        :: ConsoleEvent.log (stringify oi)
        :: ConsoleEvent.log typeHeader
        :: formatSections oi

/-- The optional-chaining extraction
productDetail.originProduct?.detailAttribute?.optionInfo (line 48). -/
def extractOptionInfo (d : ProductDetail) : Option OptionInfo :=
  d.originProduct.bind fun op => op.detailAttribute.bind fun da => da.optionInfo

/-- Result of running the body of the try block (lines 36-99):
console output, the number of calls made to each collaborator method,
and the exception (if any) escaping the block into the catch. -/
structure BodyResult where
  output : List ConsoleEvent
  fetchCalls : Nat
  parseCalls : Nat
  raised : Option String
deriving DecidableEq, Repr

/-- The try-block body (lines 36-99 of the source). -/
def tryBody (api : ApiModel) (stringify : OptionInfo → String)
    (productId : String) : BodyResult :=
  match api.fetch productId with
  | Except.error msg =>
      { output := [], fetchCalls := 1, parseCalls := 0, raised := some msg }
  | Except.ok none =>
      { output := [ConsoleEvent.error notFoundMsg],
        fetchCalls := 1, parseCalls := 0, raised := none }
  | Except.ok (some d) =>
      let nameEv := ConsoleEvent.log ("상품명: " ++ showOpt d.name)
      match extractOptionInfo d with
      | none =>
          { output := nameEv :: formatOptionReport stringify none,
            fetchCalls := 1, parseCalls := 0, raised := none }
      | some oi =>
          let pre := nameEv :: (formatOptionReport stringify (some oi)
            ++ [ConsoleEvent.log builtinHeader])
          match api.parse oi productId with
          | Except.error msg =>
              { output := pre, fetchCalls := 1, parseCalls := 1, raised := some msg }
          | Except.ok parsed =>
              { output := pre ++ [ConsoleEvent.log parsed],
                fetchCalls := 1, parseCalls := 1, raised := none }

/-- Result of a whole run of getProductOptionExample: console output,
collaborator call counts, whether the API client was constructed, and
whether an exception escaped the function. -/
structure RunResult where
  output : List ConsoleEvent
  fetchCalls : Nat
  parseCalls : Nat
  constructed : Bool
  threw : Bool
deriving DecidableEq, Repr

/-- The whole script function getProductOptionExample (lines 20-104):
credential check, client construction, start log, try body, catch. -/
def getProductOptionExample (env : Env) (api : ApiModel)
    (stringify : OptionInfo → String) (productId : String) : RunResult :=
  if !(jsTruthy env.clientId) || !(jsTruthy env.clientSecret) then
    { output := [ConsoleEvent.error credsMsg],
      fetchCalls := 0, parseCalls := 0, constructed := false, threw := false }
  else
    let b := tryBody api stringify productId
    match b.raised with
    | some msg =>
        { output := ConsoleEvent.log (startMsg productId) :: b.output
            ++ [ConsoleEvent.error ("❌ 조회 중 오류 발생: " ++ msg)],
          fetchCalls := b.fetchCalls, parseCalls := b.parseCalls,
          constructed := true, threw := false }
    | none =>
        { output := ConsoleEvent.log (startMsg productId) :: b.output,
          fetchCalls := b.fetchCalls, parseCalls := b.parseCalls,
          constructed := true, threw := false }

/-- Spec-side section combinator (section 4.1 of the spec): a labeled
section is emitted only when its entry lines are non-empty; absence and
emptiness are treated identically. -/
def specSection (label : String) (entries : List ConsoleEvent) : List ConsoleEvent :=
  if entries.isEmpty then [] else ConsoleEvent.log label :: entries

/-- Spec-side description of the per-variant report: for each of the four
variants present and non-empty, a labeled section listing every entry, in
the fixed order simple, combinations, custom, standards; for combinations
the group-name line (from optionCombinationGroupNames, defaulting to the
empty sequence) appears once per variant before the entries. -/
def reportSectionsSpec (oi : OptionInfo) : List ConsoleEvent :=
  specSection simpleLabel
      ((oi.optionSimple.getD []).map (fun opt => ConsoleEvent.log (simpleLine opt)))
    ++ (match oi.optionCombinations.getD [] with
        | [] => []
        | l =>
            ConsoleEvent.log combLabel
              :: ConsoleEvent.log (groupNamesLine (oi.optionCombinationGroupNames.getD []))
              :: l.map (fun combo => ConsoleEvent.log (comboLine combo)))
    ++ specSection customLabel
      ((oi.optionCustom.getD []).map (fun custom => ConsoleEvent.log (customLine custom)))
    ++ specSection standardLabel
      ((oi.optionStandards.getD []).map (fun std => ConsoleEvent.log (standardLine std)))

/-- All four variant collections are absent or empty. -/
def allCollectionsEmpty (oi : OptionInfo) : Prop :=
  oi.optionSimple.getD [] = [] ∧ oi.optionCombinations.getD [] = []
    ∧ oi.optionCustom.getD [] = [] ∧ oi.optionStandards.getD [] = []

/-- An optionInfo object with all four collections absent. -/
def emptyOI : OptionInfo :=
  { optionSimple := none, optionCombinations := none,
    optionCombinationGroupNames := none, optionCustom := none,
    optionStandards := none }

/-- The combination entry of the spec's fixture. -/
def fixtureCombo : OptionCombinationEntry :=
  { optionName := some "Red/L", id := some "c1", stockQuantity := some 5 }

/-- The spec's combinations fixture. -/
def fixtureOI : OptionInfo :=
  { optionSimple := none, optionCombinations := some [fixtureCombo],
    optionCombinationGroupNames := some ["Color", "Size"],
    optionCustom := none, optionStandards := none }

/-- Standards entry with only a standardOptionName. -/
def blueStd : OptionStandardEntry :=
  { optionName := none, standardOptionName := some "Blue", id := none }

/-- Standards entry whose optionName is present but empty. -/
def emptyNameStd : OptionStandardEntry :=
  { optionName := some "", standardOptionName := some "Blue", id := some "s1" }

/-- An environment with both credentials present and non-empty. -/
def okEnv : Env := { clientId := some "id", clientSecret := some "secret" }

/-- A stand-in for JSON.stringify used in concrete runs. -/
def rawDump : OptionInfo → String := fun _ => "null"

/-- A collaborator whose detail fetch resolves to null. -/
def nullApi : ApiModel :=
  { fetch := fun _ => Except.ok none, parse := fun _ _ => Except.ok "null" }

/-- A collaborator whose detail fetch rejects. -/
def failApi : ApiModel :=
  { fetch := fun _ => Except.error "Request failed with status code 404",
    parse := fun _ _ => Except.ok "null" }

/-- A product detail without originProduct, hence without optionInfo. -/
def bareProduct : ProductDetail := { name := some "테스트 상품", originProduct := none }

/-- A collaborator returning the bare product. -/
def bareApi : ApiModel :=
  { fetch := fun _ => Except.ok (some bareProduct), parse := fun _ _ => Except.ok "null" }

/-- A product detail carrying the combinations fixture as its optionInfo. -/
def fixtureProduct : ProductDetail :=
  { name := some "테스트 상품",
    originProduct := some { detailAttribute := some { optionInfo := some fixtureOI } } }

/-- A collaborator returning the fixture product. -/
def fixtureApi : ApiModel :=
  { fetch := fun _ => Except.ok (some fixtureProduct),
    parse := fun _ _ => Except.ok "parsed" }

theorem formatSimple_eq (oi : OptionInfo) :
    formatSimple oi = specSection simpleLabel
      ((oi.optionSimple.getD []).map (fun opt => ConsoleEvent.log (simpleLine opt))) := by
  unfold formatSimple specSection
  cases h : oi.optionSimple with
  | none => simp
  | some l => cases l <;> simp

theorem formatCombinations_eq (oi : OptionInfo) :
    formatCombinations oi =
      (match oi.optionCombinations.getD [] with
       | [] => []
       | l =>
           ConsoleEvent.log combLabel
             :: ConsoleEvent.log (groupNamesLine (oi.optionCombinationGroupNames.getD []))
             :: l.map (fun combo => ConsoleEvent.log (comboLine combo))) := by
  unfold formatCombinations
  cases h : oi.optionCombinations with
  | none => simp
  | some l => cases l <;> simp

theorem formatCustom_eq (oi : OptionInfo) :
    formatCustom oi = specSection customLabel
      ((oi.optionCustom.getD []).map (fun custom => ConsoleEvent.log (customLine custom))) := by
  unfold formatCustom specSection
  cases h : oi.optionCustom with
  | none => simp
  | some l => cases l <;> simp

theorem formatStandards_eq (oi : OptionInfo) :
    formatStandards oi = specSection standardLabel
      ((oi.optionStandards.getD []).map (fun std => ConsoleEvent.log (standardLine std))) := by
  unfold formatStandards specSection
  cases h : oi.optionStandards with
  | none => simp
  | some l => cases l <;> simp

theorem comboLine_ne_groupNamesLine (combo : OptionCombinationEntry) (g : List String) :
    comboLine combo ≠ groupNamesLine g := by
  intro h
  have h4 : (comboLine combo).data.get? 4 = (groupNamesLine g).data.get? 4 :=
    congrArg (fun s : String => s.data.get? 4) h
  have e1 : (comboLine combo).data.get? 4 = some '조' := rfl
  have e2 : (groupNamesLine g).data.get? 4 = some '옵' := rfl
  rw [e1, e2] at h4
  exact absurd h4 (by decide)

theorem combLabel_ne_groupNamesLine (g : List String) :
    combLabel ≠ groupNamesLine g := by
  intro h
  have h0 : combLabel.data.get? 0 = (groupNamesLine g).data.get? 0 :=
    congrArg (fun s : String => s.data.get? 0) h
  have e1 : combLabel.data.get? 0 = some '[' := rfl
  have e2 : (groupNamesLine g).data.get? 0 = some ' ' := rfl
  rw [e1, e2] at h0
  exact absurd h0 (by decide)

/-- C1 counterexample: on a present optionInfo whose four collections are
all absent, the formatter does not emit the no-options notice at all, so
its output is not exactly that notice. -/
theorem empty_optioninfo_no_notice :
    ConsoleEvent.log noOptionsMsg ∉ formatOptionReport rawDump (some emptyOI)
    ∧ formatOptionReport rawDump (some emptyOI) ≠ [ConsoleEvent.log noOptionsMsg] := by
  decide

/-- C1 (amended): the formatter emits exactly the no-options notice when
optionInfo is absent; when optionInfo is present but all four variant
collections are absent or empty, it emits no variant section (and no
notice), only the raw-dump line and the two headers. -/
theorem report_empty_variants (stringify : OptionInfo → String) (oi : OptionInfo)
    (h : allCollectionsEmpty oi) :
    formatOptionReport stringify (some oi) =
      [ConsoleEvent.log rawHeader, ConsoleEvent.log (stringify oi),
       ConsoleEvent.log typeHeader]
    ∧ formatOptionReport stringify none = [ConsoleEvent.log noOptionsMsg] := by
  obtain ⟨h1, h2, h3, h4⟩ := h
  refine ⟨?_, rfl⟩
  simp [formatOptionReport, formatSections, formatSimple_eq, formatCombinations_eq,
    formatCustom_eq, formatStandards_eq, h1, h2, h3, h4, specSection]

/-- C1 witness: the amended statement evaluated on a concrete empty
optionInfo. -/
theorem report_empty_variants_w :
    formatOptionReport rawDump (some emptyOI) =
      [ConsoleEvent.log rawHeader, ConsoleEvent.log (rawDump emptyOI),
       ConsoleEvent.log typeHeader]
    ∧ formatOptionReport rawDump none = [ConsoleEvent.log noOptionsMsg] :=
  report_empty_variants rawDump emptyOI (by simp [allCollectionsEmpty, emptyOI])

/-- C2 counterexample: a standards entry whose optionName is present but
empty displays the standardOptionName, not the present optionName. -/
theorem empty_optionName_not_displayed :
    emptyNameStd.optionName = some ""
    ∧ standardDisplayName emptyNameStd = "Blue"
    ∧ standardLine emptyNameStd = "  - Blue (ID: s1)"
    ∧ ("Blue" : String) ≠ "" := by
  decide

/-- C2 (amended): the displayed name of a standards entry is optionName
when it is present and non-empty, and the rendered standardOptionName
otherwise (first truthy wins); in particular an entry with
standardOptionName Blue and no optionName displays Blue. -/
theorem standard_display_first_truthy (e : OptionStandardEntry) :
    (∀ s, e.optionName = some s → s ≠ "" → standardDisplayName e = s)
    ∧ ((e.optionName = none ∨ e.optionName = some "") →
        standardDisplayName e = showOpt e.standardOptionName)
    ∧ (e.optionName = none → e.standardOptionName = some "Blue" →
        standardDisplayName e = "Blue") := by
  refine ⟨?_, ?_, ?_⟩
  · intro s hs hne
    simp [standardDisplayName, jsStrOr, hs, hne]
  · rintro (h | h) <;> simp [standardDisplayName, jsStrOr, h]
  · intro h1 h2
    simp [standardDisplayName, jsStrOr, h1, h2, showOpt]

/-- C2 witness: a concrete entry with only standardOptionName Blue
displays Blue. -/
theorem standard_display_first_truthy_w :
    standardDisplayName blueStd = "Blue" :=
  (standard_display_first_truthy blueStd).2.2 rfl rfl

/-- C6: the four per-variant blocks of the script coincide with the
spec-side report: a labeled section for each variant present and
non-empty, every entry listed, in the fixed order simple, combinations,
custom, standards, with absent or empty variants skipped entirely. -/
theorem sections_match_spec (oi : OptionInfo) :
    formatSections oi = reportSectionsSpec oi := by
  unfold formatSections reportSectionsSpec
  rw [formatSimple_eq, formatCombinations_eq, formatCustom_eq, formatStandards_eq]

/-- C3: when either credential is missing from the environment, the run
reports the configuration error as its only output and returns early: no
client is constructed, no collaborator call is made, and no exception is
raised. -/
theorem missing_creds_early_return (env : Env) (api : ApiModel)
    (stringify : OptionInfo → String) (pid : String)
    (h : env.clientId = none ∨ env.clientSecret = none) :
    getProductOptionExample env api stringify pid =
      { output := [ConsoleEvent.error credsMsg], fetchCalls := 0, parseCalls := 0,
        constructed := false, threw := false } := by
  rcases h with h | h <;> simp [getProductOptionExample, jsTruthy, h]

/-- C3 witness: a concrete run with NAVER_CLIENT_ID unset. -/
theorem missing_creds_early_return_w :
    getProductOptionExample { clientId := none, clientSecret := some "secret" }
        nullApi rawDump "1234567890" =
      { output := [ConsoleEvent.error credsMsg], fetchCalls := 0, parseCalls := 0,
        constructed := false, threw := false } :=
  missing_creds_early_return _ _ _ _ (Or.inl rfl)

/-- C4: when the detail fetch resolves to null, the run takes the
not-found branch: the guidance message is the only output after the start
log, no further field is accessed (no exception), and the parser is never
called. -/
theorem null_detail_not_found (env : Env) (api : ApiModel)
    (stringify : OptionInfo → String) (pid : String)
    (h1 : jsTruthy env.clientId = true) (h2 : jsTruthy env.clientSecret = true)
    (hf : api.fetch pid = Except.ok none) :
    getProductOptionExample env api stringify pid =
      { output := [ConsoleEvent.log (startMsg pid), ConsoleEvent.error notFoundMsg],
        fetchCalls := 1, parseCalls := 0, constructed := true, threw := false } := by
  simp [getProductOptionExample, h1, h2, tryBody, hf]

/-- C4 witness: a concrete run whose fetch resolves to null. -/
theorem null_detail_not_found_w :
    getProductOptionExample okEnv nullApi rawDump "1234567890" =
      { output := [ConsoleEvent.log (startMsg "1234567890"),
          ConsoleEvent.error notFoundMsg],
        fetchCalls := 1, parseCalls := 0, constructed := true, threw := false } :=
  null_detail_not_found okEnv nullApi rawDump "1234567890" rfl rfl rfl

/-- C5: when the fetched detail carries no optionInfo, the run logs the
name line and the single no-options notice, then stops: no section
output, no parser call, no error event, no exception. -/
theorem absent_optionInfo_notice (env : Env) (api : ApiModel)
    (stringify : OptionInfo → String) (pid : String) (d : ProductDetail)
    (h1 : jsTruthy env.clientId = true) (h2 : jsTruthy env.clientSecret = true)
    (hf : api.fetch pid = Except.ok (some d)) (ho : extractOptionInfo d = none) :
    getProductOptionExample env api stringify pid =
      { output := [ConsoleEvent.log (startMsg pid),
          ConsoleEvent.log ("상품명: " ++ showOpt d.name),
          ConsoleEvent.log noOptionsMsg],
        fetchCalls := 1, parseCalls := 0, constructed := true, threw := false } := by
  simp [getProductOptionExample, h1, h2, tryBody, hf, ho, formatOptionReport]

/-- C5 witness: a concrete product without originProduct. -/
theorem absent_optionInfo_notice_w :
    getProductOptionExample okEnv bareApi rawDump "1234567890" =
      { output := [ConsoleEvent.log (startMsg "1234567890"),
          ConsoleEvent.log ("상품명: " ++ showOpt bareProduct.name),
          ConsoleEvent.log noOptionsMsg],
        fetchCalls := 1, parseCalls := 0, constructed := true, threw := false } :=
  absent_optionInfo_notice okEnv bareApi rawDump "1234567890" bareProduct rfl rfl rfl rfl

/-- C7: in a non-empty combinations block the group-name line, derived
from optionCombinationGroupNames (default empty), appears exactly once,
right after the label and before the per-entry lines. -/
theorem combinations_group_names_once (oi : OptionInfo)
    (l : List OptionCombinationEntry)
    (h : oi.optionCombinations = some l) (hne : l ≠ []) :
    formatCombinations oi =
      ConsoleEvent.log combLabel
        :: ConsoleEvent.log (groupNamesLine (oi.optionCombinationGroupNames.getD []))
        :: l.map (fun combo => ConsoleEvent.log (comboLine combo))
    ∧ (formatCombinations oi).count
        (ConsoleEvent.log (groupNamesLine (oi.optionCombinationGroupNames.getD []))) = 1 := by
  have hstruct : formatCombinations oi =
      ConsoleEvent.log combLabel
        :: ConsoleEvent.log (groupNamesLine (oi.optionCombinationGroupNames.getD []))
        :: l.map (fun combo => ConsoleEvent.log (comboLine combo)) := by
    unfold formatCombinations
    rw [h]
    cases l with
    | nil => exact absurd rfl hne
    | cons a as => simp
  refine ⟨hstruct, ?_⟩
  rw [hstruct]
  have hlab : (ConsoleEvent.log combLabel : ConsoleEvent) ≠
      ConsoleEvent.log (groupNamesLine (oi.optionCombinationGroupNames.getD [])) := by
    simp [combLabel_ne_groupNamesLine]
  have hmem : (ConsoleEvent.log (groupNamesLine (oi.optionCombinationGroupNames.getD []))
      : ConsoleEvent) ∉ l.map (fun combo => ConsoleEvent.log (comboLine combo)) := by
    simp only [List.mem_map, not_exists, not_and]
    intro combo _ hEq
    have : comboLine combo = groupNamesLine (oi.optionCombinationGroupNames.getD []) := by
      injection hEq
    exact comboLine_ne_groupNamesLine combo _ this
  simp [List.count_cons, hlab.symm, List.count_eq_zero.mpr hmem]

/-- C7 witness: the spec's fixture produces the joined group names
Color, Size once and the combination line with id c1 and quantity 5. -/
theorem combinations_group_names_once_w :
    formatCombinations fixtureOI =
      [ConsoleEvent.log "[조합형 옵션]",
       ConsoleEvent.log "  - 옵션 항목명: Color, Size",
       ConsoleEvent.log "  - 조합: Red/L (ID: c1, 재고: 5개)"]
    ∧ (formatCombinations fixtureOI).count
        (ConsoleEvent.log "  - 옵션 항목명: Color, Size") = 1 := by
  have h := combinations_group_names_once fixtureOI [fixtureCombo] rfl (by decide)
  exact ⟨h.1.trans (by decide), h.2⟩

theorem tryBody_parse_shape (api : ApiModel) (stringify : OptionInfo → String)
    (pid : String) :
    (tryBody api stringify pid).parseCalls ≤ 1
    ∧ ((tryBody api stringify pid).parseCalls = 1 →
        ∃ d oi, api.fetch pid = Except.ok (some d) ∧ extractOptionInfo d = some oi) := by
  rcases hf : api.fetch pid with msg | od
  · simp [tryBody, hf]
  · rcases od with _ | d
    · simp [tryBody, hf]
    · rcases ho : extractOptionInfo d with _ | oi
      · simp [tryBody, hf, ho]
      · rcases hp : api.parse oi pid with m | parsed
        · refine ⟨?_, fun _ => ⟨d, oi, rfl, ho⟩⟩
          simp [tryBody, hf, ho, hp]
        · refine ⟨?_, fun _ => ⟨d, oi, rfl, ho⟩⟩
          simp [tryBody, hf, ho, hp]

/-- C8: no run of the script lets an exception escape: in particular when
the detail fetch rejects, its message is logged through the catch branch
as the final output event and the run still terminates without a fault. -/
theorem flow_failures_caught (env : Env) (api : ApiModel)
    (stringify : OptionInfo → String) (pid : String) :
    (getProductOptionExample env api stringify pid).threw = false
    ∧ (∀ msg, jsTruthy env.clientId = true → jsTruthy env.clientSecret = true →
        api.fetch pid = Except.error msg →
        (getProductOptionExample env api stringify pid).output =
          [ConsoleEvent.log (startMsg pid),
           ConsoleEvent.error ("❌ 조회 중 오류 발생: " ++ msg)]) := by
  constructor
  · unfold getProductOptionExample
    split
    · rfl
    · dsimp only
      split <;> rfl
  · intro msg h1 h2 hf
    simp [getProductOptionExample, h1, h2, tryBody, hf]

/-- C8 witness: a concrete run whose fetch rejects with a 404 message. -/
theorem flow_failures_caught_w :
    (getProductOptionExample okEnv failApi rawDump "1234567890").threw = false
    ∧ (getProductOptionExample okEnv failApi rawDump "1234567890").output =
      [ConsoleEvent.log (startMsg "1234567890"),
       ConsoleEvent.error ("❌ 조회 중 오류 발생: Request failed with status code 404")] := by
  have h := flow_failures_caught okEnv failApi rawDump "1234567890"
  exact ⟨h.1, h.2 "Request failed with status code 404" rfl rfl rfl⟩

/-- C9: the built-in parser is called at most once per run, and a run
that calls it once fetched a non-null detail carrying a present
optionInfo, so the parser is never handed an absent optionInfo. -/
theorem parse_called_at_most_once (env : Env) (api : ApiModel)
    (stringify : OptionInfo → String) (pid : String) :
    (getProductOptionExample env api stringify pid).parseCalls ≤ 1
    ∧ ((getProductOptionExample env api stringify pid).parseCalls = 1 →
        ∃ d oi, api.fetch pid = Except.ok (some d) ∧ extractOptionInfo d = some oi) := by
  have ht := tryBody_parse_shape api stringify pid
  unfold getProductOptionExample
  split
  · simp
  · dsimp only
    split <;> exact ⟨ht.1, ht.2⟩

/-- C9 witness: a concrete run that does call the parser, exhibiting the
fetched detail and its present optionInfo. -/
theorem parse_called_at_most_once_w :
    (getProductOptionExample okEnv fixtureApi rawDump "1234567890").parseCalls ≤ 1
    ∧ ∃ d oi, fixtureApi.fetch "1234567890" = Except.ok (some d)
        ∧ extractOptionInfo d = some oi := by
  have h := parse_called_at_most_once okEnv fixtureApi rawDump "1234567890"
  exact ⟨h.1, h.2 rfl⟩

/-- C10: credentials set to the empty string are treated exactly like
absent ones: the run equals the run with both variables unset, the
configuration error is the only output, and no client is constructed. -/
theorem empty_creds_like_absent (env : Env) (api : ApiModel)
    (stringify : OptionInfo → String) (pid : String)
    (h : env.clientId = some "" ∨ env.clientSecret = some "") :
    getProductOptionExample env api stringify pid =
      getProductOptionExample { clientId := none, clientSecret := none } api stringify pid
    ∧ (getProductOptionExample env api stringify pid).constructed = false
    ∧ (getProductOptionExample env api stringify pid).output =
        [ConsoleEvent.error credsMsg] := by
  have hbranch : getProductOptionExample env api stringify pid =
      { output := [ConsoleEvent.error credsMsg], fetchCalls := 0, parseCalls := 0,
        constructed := false, threw := false } := by
    rcases h with h | h <;> simp [getProductOptionExample, jsTruthy, h]
  refine ⟨?_, by rw [hbranch], by rw [hbranch]⟩
  rw [hbranch]
  rfl

/-- C10 witness: a concrete run with NAVER_CLIENT_ID set to the empty
string. -/
theorem empty_creds_like_absent_w :
    getProductOptionExample { clientId := some "", clientSecret := some "secret" }
        nullApi rawDump "1234567890" =
      getProductOptionExample { clientId := none, clientSecret := none }
        nullApi rawDump "1234567890"
    ∧ (getProductOptionExample { clientId := some "", clientSecret := some "secret" }
        nullApi rawDump "1234567890").constructed = false
    ∧ (getProductOptionExample { clientId := some "", clientSecret := some "secret" }
        nullApi rawDump "1234567890").output = [ConsoleEvent.error credsMsg] :=
  empty_creds_like_absent _ _ _ _ (Or.inl rfl)

end NaverOptionExample
